import Mathlib

/-!
# Verification of the ride-hailing core (app-mobilidade-2025)

Shallow embedding of the ride lifecycle, dispatch, presence and pricing
code of the repository, together with proofs and refutations of the
specified properties.

JavaScript numbers are modelled by `ℚ` (the arithmetic appearing in the
pricing code — sums, products, `Math.max`, `Math.round`, `Math.ceil` —
is exact on the rationals for the inputs of interest).  Document-store
timestamps are modelled by `Nat` (milliseconds), `null`/`''`/absent
fields by `Option`.
-/

/-- JavaScript `Math.round`: round half toward positive infinity. -/
def jsRound (x : ℚ) : ℤ := ⌊x + 1/2⌋

/-- JavaScript `Math.ceil`. -/
def jsCeil (x : ℚ) : ℤ := ⌈x⌉

/-- `Math.round(x * 100) / 100` — round to 2 decimal places. -/
def roundTo2 (x : ℚ) : ℚ := (jsRound (x * 100) : ℚ) / 100

section Pricing

/-- One `{start, end}` entry of `dynamicPricing.peakHours`; the `"HH:MM"`
strings are represented by their hour and minute components. -/
structure PeakPeriod where
  startHour : Nat
  startMinute : Nat
  endHour : Nat
  endMinute : Nat
deriving DecidableEq, Repr

/-- `startMinutes` as computed in `calculateDynamicPrice`. -/
def PeakPeriod.startMinutes (p : PeakPeriod) : Nat := p.startHour * 60 + p.startMinute

/-- `endMinutes` as computed in `calculateDynamicPrice`. -/
def PeakPeriod.endMinutes (p : PeakPeriod) : Nat := p.endHour * 60 + p.endMinute

/-- The `dynamicPricing` sub-record of a vehicle category. -/
structure DynamicPricing where
  rainMultiplier : ℚ
  peakHoursMultiplier : ℚ
  peakHours : List PeakPeriod
deriving DecidableEq, Repr

/-- Pricing snapshot of a vehicle category (`VehicleCategory`). -/
structure VehicleCategory where
  basePrice : ℚ
  pricePerKm : ℚ
  pricePerMinute : ℚ
  minPrice : ℚ
  minDistance : ℚ
  dynamicPricing : DynamicPricing
deriving DecidableEq, Repr

namespace Pricing

/-- `BASE_DISTANCE_KM` of `utils/pricing` (the variant taking a whole
category, imported by the ride-request page): the hardcoded 3 km
included in the base price. -/
def BASE_DISTANCE_KM : ℚ := 3

/-- `calculatePrice(distanceInMeters, durationInMinutes, category)`:
base price covers up to `BASE_DISTANCE_KM`; linear per-km charge on the
excess; per-minute charge; clamp to `minPrice`; round to 2 decimals. -/
def calculatePrice (distanceInMeters durationInMinutes : ℚ)
    (category : VehicleCategory) : ℚ :=
  let distanceInKm := distanceInMeters / 1000
  let afterKm :=
    if BASE_DISTANCE_KM < distanceInKm then
      category.basePrice + (distanceInKm - BASE_DISTANCE_KM) * category.pricePerKm
    else category.basePrice
  let total := afterKm + durationInMinutes * category.pricePerMinute
  roundTo2 (max total category.minPrice)

/-- The `some`-test of `calculateDynamicPrice`: is `hour:minute` inside a
peak window (inclusive at both ends, compared in minutes)? -/
def isPeakHour (category : VehicleCategory) (hour minute : Nat) : Bool :=
  category.dynamicPricing.peakHours.any fun p =>
    decide (p.startMinutes ≤ hour * 60 + minute ∧ hour * 60 + minute ≤ p.endMinutes)

/-- `calculateDynamicPrice(category, {isRaining, currentTime, distance,
duration})` of `utils/pricing`: base calculation, then the peak-hours
multiplier, then the rain multiplier, then rounding. -/
def calculateDynamicPrice (category : VehicleCategory) (isRaining : Bool)
    (hour minute : Nat) (distance duration : ℚ) : ℚ :=
  let base := calculatePrice distance duration category
  let afterPeak :=
    if isPeakHour category hour minute then
      base * category.dynamicPricing.peakHoursMultiplier
    else base
  let afterRain := if isRaining then afterPeak * category.dynamicPricing.rainMultiplier
    else afterPeak
  roundTo2 afterRain

end Pricing

namespace PricingAlt

/-- The second `calculatePrice` variant found in the repository (the one
taking the pricing fields positionally): distance rounded to one
decimal, excess km rounded *up* to a whole km, time charge only when
both duration and rate are positive — and **no** `minPrice` clamp. -/
def calculatePrice (distanceInMeters pricePerKm basePrice minDistance
    durationInSeconds pricePerMinute : ℚ) : ℚ :=
  let distanceInKm := (jsRound (distanceInMeters / 1000 * 10) : ℚ) / 10
  let afterKm :=
    if minDistance < distanceInKm then
      basePrice + (jsCeil (distanceInKm - minDistance) : ℚ) * pricePerKm
    else basePrice
  if 0 < durationInSeconds ∧ 0 < pricePerMinute then
    afterKm + (jsCeil (durationInSeconds / 60) : ℚ) * pricePerMinute
  else afterKm

end PricingAlt

/-- `handleConfirmRide` quote (ride-request page): `timeInMinutes =
Math.ceil(distance / 30000 * 60)` assuming 30 km/h. -/
def confirmRideTimeInMinutes (distance : ℚ) : ℤ := jsCeil (distance / 30000 * 60)

/-- The price stored on the ride created by `handleConfirmRide`:
`calculatePrice(distance, timeInMinutes, selectedVehicle)` — the
time-of-day–independent variant; `calculateDynamicPrice` is never
consulted on this path. -/
def confirmRidePrice (distance : ℚ) (category : VehicleCategory) : ℚ :=
  Pricing.calculatePrice distance (confirmRideTimeInMinutes distance : ℚ) category

/-- The happy-path category of the specification's pricing scenarios. -/
def happyPathCategory : VehicleCategory where
  basePrice := 8
  pricePerKm := 2
  pricePerMinute := 0
  minPrice := 8
  minDistance := 3
  dynamicPricing :=
    { rainMultiplier := 12/10
      peakHoursMultiplier := 3/2
      peakHours := [⟨7, 0, 9, 0⟩, ⟨17, 0, 19, 0⟩] }

end Pricing

section RideLifecycle

/-- An origin/destination of a ride (`{place, address, coordinates}`). -/
structure Location where
  place : String
  address : String
  coordinates : ℚ × ℚ
deriving DecidableEq

/-- The denormalized driver snapshot written into a ride on accept. -/
structure DriverInfo where
  id : String
  name : String
  phone : String
  rating : ℚ
  vehicleModel : String
  vehiclePlate : String
  vehicleColor : String
  currentLocation : Option (ℚ × ℚ)
deriving DecidableEq

/-- The status union of the `Ride` type. -/
inductive RideStatus
  | pending
  | accepted
  | arrived
  | inProgress
  | completed
  | cancelled
deriving DecidableEq

/-- A ride document.  `driverId : Option String` models both the empty
string written at creation and `null`; optional timestamps model fields
that are absent until the transition that writes them. -/
structure Ride where
  id : String
  userId : String
  userName : String
  userPhone : String
  origin : Location
  destination : Location
  category : VehicleCategory
  price : ℚ
  distance : ℚ
  duration : ℚ
  estimatedTime : String
  paymentMethod : String
  status : RideStatus
  driverId : Option String
  driver : Option DriverInfo
  availableDrivers : List String
  createdAt : Nat
  updatedAt : Nat
  acceptedAt : Option Nat
  driverArrived : Bool
  arrivedAt : Option Nat
  startedAt : Option Nat
  completedAt : Option Nat
  completedBy : Option String
  finalLocation : Option (ℚ × ℚ)
  cancelledAt : Option Nat
  cancelledBy : Option String
deriving DecidableEq

/-- The `rideData` document built by `handleConfirmRide`: a fresh pending
ride with empty `driverId`, `driver: null`, and the quoted price. -/
def createRideData (id uid name phone : String) (origin destination : Location)
    (category : VehicleCategory) (distance : ℚ) (paymentMethod : String)
    (now : Nat) (availableDrivers : List String) : Ride where
  id := id
  userId := uid
  userName := name
  userPhone := phone
  origin := origin
  destination := destination
  category := category
  price := confirmRidePrice distance category
  distance := distance
  duration := (confirmRideTimeInMinutes distance : ℚ)
  estimatedTime := ""
  paymentMethod := paymentMethod
  status := RideStatus.pending
  driverId := none
  driver := none
  availableDrivers := availableDrivers
  createdAt := now
  updatedAt := now
  acceptedAt := none
  driverArrived := false
  arrivedAt := none
  startedAt := none
  completedAt := none
  completedBy := none
  finalLocation := none
  cancelledAt := none
  cancelledBy := none

/-- The `updateDoc` patch of `handleAcceptRide`: set status, driver id,
driver snapshot, acceptance time and the passenger display name. -/
def acceptUpdate (uid : String) (info : DriverInfo) (now : Nat)
    (passengerName : String) (r : Ride) : Ride :=
  { r with
    status := RideStatus.accepted
    driverId := some uid
    driver := some info
    acceptedAt := some now
    userName := passengerName }

/-- The `updateDoc` patch of `handleNotifyArrival` (`markArrived`): set
`driverArrived` and stamp `arrivedAt` with the current time. -/
def markArrived (now : Nat) (r : Ride) : Ride :=
  { r with driverArrived := true, arrivedAt := some now }

/-- The `updateDoc` patch of `handleStartRide`. -/
def startRide (now : Nat) (r : Ride) : Ride :=
  { r with status := RideStatus.inProgress, startedAt := some now }

/-- The document written into `completedRides` by `handleCompleteRide`:
the spread of the ride plus the completion fields. -/
def completeRecord (now : Nat) (uid : String) (loc : Option (ℚ × ℚ))
    (r : Ride) : Ride :=
  { r with
    status := RideStatus.completed
    completedAt := some now
    completedBy := some uid
    finalLocation := loc }

/-- The document written into `cancelledRides` by `handleRejectRide`:
the spread of the ride plus `status: 'cancelled'`, `cancelledAt`,
`cancelledBy: 'driver'` and — notably — `driverId` set to the REJECTING
driver's uid. -/
def rejectRecord (now : Nat) (uid : String) (r : Ride) : Ride :=
  { r with
    status := RideStatus.cancelled
    cancelledAt := some now
    cancelledBy := some "driver"
    driverId := some uid }

/-- The three ride collections of the document store. -/
structure Store where
  activeRides : List (String × Ride)
  completedRides : List (String × Ride)
  cancelledRides : List Ride
deriving DecidableEq

/-- Keyed lookup in a collection (document id → document). -/
def findRide (id : String) (l : List (String × Ride)) : Option Ride :=
  (l.find? fun p => p.1 == id).map (fun p => p.2)

/-- `handleCompleteRide`: `setDoc` the completed record under the same
id in `completedRides`, then `deleteDoc` from `activeRides`. -/
def handleCompleteRide (now : Nat) (uid : String) (loc : Option (ℚ × ℚ))
    (r : Ride) (s : Store) : Store :=
  { s with
    completedRides :=
      (r.id, completeRecord now uid loc r) :: s.completedRides.filter (fun p => p.1 != r.id)
    activeRides := s.activeRides.filter (fun p => p.1 != r.id) }

/-- The passenger's `handleCancelRide`: a bare `deleteDoc` of the active
ride — nothing is written anywhere else. -/
def handleCancelRide (rideId : String) (s : Store) : Store :=
  { s with activeRides := s.activeRides.filter (fun p => p.1 != rideId) }

/-- `handleRejectRide`: `addDoc` the reject record into `cancelledRides`
and `deleteDoc` from `activeRides`. -/
def handleRejectRide (now : Nat) (uid : String) (r : Ride) (s : Store) : Store :=
  { s with
    cancelledRides := rejectRecord now uid r :: s.cancelledRides
    activeRides := s.activeRides.filter (fun p => p.1 != r.id) }

end RideLifecycle

section AcceptRace

/-- Outcome of one driver's `handleAcceptRide` call. -/
inductive AcceptOutcome
  | success
  | notAvailable
  | alreadyTaken
  | validationFailed
  | updateFailed
deriving DecidableEq

/-- Where a `handleAcceptRide` call stands: before its `getDoc`, between
the client-side guard and its `updateDoc`, or finished. -/
inductive AttemptPhase
  | ready
  | checked (snapshot : Ride)
  | done (outcome : AcceptOutcome)
deriving DecidableEq

/-- One driver's in-flight `handleAcceptRide` invocation. -/
structure AcceptAttempt where
  uid : String
  driverInfo : DriverInfo
  vehicleComplete : Bool
  passengerName : String
  phase : AttemptPhase
deriving DecidableEq

/-- One asynchronous step of `handleAcceptRide` against the shared ride
document: the first step performs the `getDoc` and the client-side
status/driverId/vehicle checks; the second performs the *unconditional*
`updateDoc`.  The guard is evaluated on the snapshot read in the first
step, not at write time. -/
def acceptStep (now : Nat) (store : Option Ride) (a : AcceptAttempt) :
    Option Ride × AcceptAttempt :=
  match a.phase with
  | AttemptPhase.ready =>
    match store with
    | none => (store, { a with phase := AttemptPhase.done AcceptOutcome.notAvailable })
    | some r =>
      if r.status ≠ RideStatus.pending ∨ r.driverId ≠ none then
        (store, { a with phase := AttemptPhase.done AcceptOutcome.alreadyTaken })
      else if ¬ a.vehicleComplete then
        (store, { a with phase := AttemptPhase.done AcceptOutcome.validationFailed })
      else
        (store, { a with phase := AttemptPhase.checked r })
  | AttemptPhase.checked _ =>
    match store with
    | none => (store, { a with phase := AttemptPhase.done AcceptOutcome.updateFailed })
    | some cur =>
      (some (acceptUpdate a.uid a.driverInfo now a.passengerName cur),
        { a with phase := AttemptPhase.done AcceptOutcome.success })
  | AttemptPhase.done _ => (store, a)

/-- Run two concurrent accept attempts under a schedule: `false` steps
attempt 1, `true` steps attempt 2. -/
def runAcceptRace : List Bool → Nat → Option Ride → AcceptAttempt → AcceptAttempt →
    Option Ride × AcceptAttempt × AcceptAttempt
  | [], _, st, a1, a2 => (st, a1, a2)
  | b :: rest, t, st, a1, a2 =>
    if b then
      let s2 := acceptStep t st a2
      runAcceptRace rest (t + 1) s2.1 a1 s2.2
    else
      let s1 := acceptStep t st a1
      runAcceptRace rest (t + 1) s1.1 s1.2 a2

end AcceptRace

section SampleData

/-- A concrete pending ride used as the explicit input of the
counterexamples: status `pending`, empty `driverId`. -/
def samplePendingRide : Ride where
  id := "r1"
  userId := "p1"
  userName := "Passenger"
  userPhone := "555"
  origin := ⟨"A", "Origin street", (1, 2)⟩
  destination := ⟨"B", "Destination street", (3, 4)⟩
  category := happyPathCategory
  price := 12
  distance := 5000
  duration := 10
  estimatedTime := "10 min"
  paymentMethod := "pix"
  status := RideStatus.pending
  driverId := none
  driver := none
  availableDrivers := ["d1", "d2"]
  createdAt := 0
  updatedAt := 0
  acceptedAt := none
  driverArrived := false
  arrivedAt := none
  startedAt := none
  completedAt := none
  completedBy := none
  finalLocation := none
  cancelledAt := none
  cancelledBy := none

/-- Driver snapshot for driver `d1`. -/
def sampleDriverInfo1 : DriverInfo :=
  ⟨"d1", "Driver One", "111", 5, "Car A", "AAA1111", "black", some (1, 1)⟩

/-- Driver snapshot for driver `d2`. -/
def sampleDriverInfo2 : DriverInfo :=
  ⟨"d2", "Driver Two", "222", 5, "Car B", "BBB2222", "white", some (2, 2)⟩

/-- Driver `d1`'s accept attempt, about to start. -/
def sampleAttempt1 : AcceptAttempt :=
  ⟨"d1", sampleDriverInfo1, true, "Passenger", AttemptPhase.ready⟩

/-- Driver `d2`'s accept attempt, about to start. -/
def sampleAttempt2 : AcceptAttempt :=
  ⟨"d2", sampleDriverInfo2, true, "Passenger", AttemptPhase.ready⟩

end SampleData

section Presence

/-- Approval status of a driver profile. -/
inductive DriverStatus
  | pending
  | approved
  | rejected
deriving DecidableEq

/-- A driver presence document in the `drivers` collection.  Timestamps
are milliseconds since the epoch (`Int`, so that `now − 15 min` never
truncates). -/
structure DriverRecord where
  id : String
  name : String
  status : DriverStatus
  isOnline : Bool
  currentLocation : Option (ℚ × ℚ)
  lastUpdate : Option Int
  lastLocationUpdate : Option Int
  rating : ℚ
  totalRatings : Nat
deriving DecidableEq

/-- The passenger home's "nearby drivers" pipeline: the server query
filters `status == 'approved' && isOnline == true`; the client then
drops drivers without a valid coordinate pair and drivers whose
`lastUpdate` is older than 15 minutes (a missing `lastUpdate` is kept). -/
def onlineDriversView (now : Int) (drivers : List DriverRecord) : List DriverRecord :=
  ((drivers.filter fun d =>
      decide (d.status = DriverStatus.approved) && d.isOnline).filter fun d =>
    decide (d.currentLocation ≠ none) &&
      match d.lastUpdate with
      | none => true
      | some t => decide (now - 15 * 60 * 1000 < t))

/-- The driver pool consulted by `checkOnlineDrivers` and by
`handleConfirmRide` when a ride is created: the query is only
`where('isOnline', '==', true)` — no approval check, no freshness
window. -/
def checkOnlineDrivers (drivers : List DriverRecord) : List DriverRecord :=
  drivers.filter fun d => d.isOnline

/-- The periodic (15 s) `updateLocation` write of the driver home
screen: stores the sampled location and *unconditionally* re-asserts
`isOnline: true`. -/
def updateLocationTick (loc : ℚ × ℚ) (now : Int) (d : DriverRecord) : DriverRecord :=
  { d with currentLocation := some loc, lastLocationUpdate := some now, isOnline := true }

/-- The explicit online/offline toggle: writes the requested flag and
stamps `lastUpdate`. -/
def toggleOnlineStatus (newStatus : Bool) (now : Int) (d : DriverRecord) : DriverRecord :=
  { d with isOnline := newStatus, lastUpdate := some now }

/-- The unmount cleanup of the location effect: marks the driver
offline. -/
def unmountOffline (now : Int) (d : DriverRecord) : DriverRecord :=
  { d with isOnline := false, lastLocationUpdate := some now }

/-- Events a mounted driver home session can apply to the presence
record. -/
inductive PresenceEvent
  | tick (loc : ℚ × ℚ) (now : Int)
  | toggle (newStatus : Bool) (now : Int)
  | unmount (now : Int)

/-- Apply one presence event. -/
def applyPresenceEvent (d : DriverRecord) : PresenceEvent → DriverRecord
  | PresenceEvent.tick loc now => updateLocationTick loc now d
  | PresenceEvent.toggle b now => toggleOnlineStatus b now d
  | PresenceEvent.unmount now => unmountOffline now d

/-- Apply a sequence of presence events. -/
def runPresenceEvents (d : DriverRecord) (evs : List PresenceEvent) : DriverRecord :=
  evs.foldl applyPresenceEvent d

end Presence

section CompletedRideRules

/-- The passenger branch of the `completedRides` update rule:
`affectedKeys().hasOnly(['rating', 'ratingComment', 'ratedAt'])`, i.e.
the new document agrees with the old one on every other field.  The
three rating fields live on the completed ride document; they are
modelled here next to the ride. -/
structure CompletedRideDoc where
  ride : Ride
  rating : Option Nat
  ratingComment : Option String
  ratedAt : Option Nat
  driverRating : Option Nat
  driverComment : Option String
  driverRatedAt : Option Nat
deriving DecidableEq

/-- `affectedKeys ⊆ {rating, ratingComment, ratedAt}`. -/
def onlyPassengerRatingKeys (old new : CompletedRideDoc) : Prop :=
  new.ride = old.ride ∧
  new.driverRating = old.driverRating ∧
  new.driverComment = old.driverComment ∧
  new.driverRatedAt = old.driverRatedAt

/-- `affectedKeys ⊆ {driverRating, driverComment, driverRatedAt}`. -/
def onlyDriverRatingKeys (old new : CompletedRideDoc) : Prop :=
  new.ride = old.ride ∧
  new.rating = old.rating ∧
  new.ratingComment = old.ratingComment ∧
  new.ratedAt = old.ratedAt

/-- The `allow update` rule of `match /completedRides/{rideId}`: the
passenger may touch only the passenger rating keys, the assigned driver
only the driver rating keys, and an admin anything. -/
def completedRideUpdateAllowed (auth : String) (admin : Bool)
    (old new : CompletedRideDoc) : Prop :=
  (old.ride.userId = auth ∧ onlyPassengerRatingKeys old new) ∨
  (old.ride.driverId = some auth ∧ onlyDriverRatingKeys old new) ∨
  admin = true

end CompletedRideRules

/-- The `driverId`/status invariant claimed by the specification:
`driverId` non-empty iff status ∈ {accepted, arrived, inProgress,
completed}. -/
def driverIdStatusInv (r : Ride) : Prop :=
  r.driverId ≠ none ↔
    (r.status = RideStatus.accepted ∨ r.status = RideStatus.arrived ∨
     r.status = RideStatus.inProgress ∨ r.status = RideStatus.completed)

/-- A one-ride store: the live collection holds `samplePendingRide`. -/
def sampleStore : Store := ⟨[("r1", samplePendingRide)], [], []⟩

/-- A driver whose `isOnline` flag is `true` but whose presence sample
is 20 minutes old at clock time `now = 2000000` ms. -/
def staleDriver : DriverRecord where
  id := "d9"
  name := "Stale"
  status := DriverStatus.approved
  isOnline := true
  currentLocation := some (1, 1)
  lastUpdate := some (2000000 - 20 * 60 * 1000)
  lastLocationUpdate := some (2000000 - 20 * 60 * 1000)
  rating := 5
  totalRatings := 0

/-- A completed-ride document that already carries a passenger rating. -/
def sampleCompletedDoc : CompletedRideDoc where
  ride := completeRecord 9 "d1" (some (3, 4))
    (acceptUpdate "d1" sampleDriverInfo1 1 "Passenger" samplePendingRide)
  rating := some 5
  ratingComment := some "great"
  ratedAt := some 10
  driverRating := none
  driverComment := none
  driverRatedAt := none

/-- The same document with the passenger rating overwritten. -/
def sampleRerateDoc : CompletedRideDoc :=
  { sampleCompletedDoc with
    rating := some 1
    ratingComment := some "bad"
    ratedAt := some 20 }

/-- A category whose `minDistance` (5 km) exceeds the hardcoded
3 km base distance of `calculatePrice`. -/
def minDist5Category : VehicleCategory where
  basePrice := 8
  pricePerKm := 2
  pricePerMinute := 0
  minPrice := 8
  minDistance := 5
  dynamicPricing :=
    { rainMultiplier := 12/10
      peakHoursMultiplier := 3/2
      peakHours := [] }

theorem jsRound_intCast (z : ℤ) : jsRound (z : ℚ) = z := by
  have h : ⌊(1/2 : ℚ)⌋ = 0 := by
    rw [Int.floor_eq_zero_iff]
    constructor <;> norm_num
  rw [jsRound, Int.floor_int_add, h, add_zero]

theorem jsRound_ofNat (n : ℕ) : jsRound (n : ℚ) = n := by
  have := jsRound_intCast (n : ℤ)
  rwa [Int.cast_natCast] at this

theorem jsRound_mono {x y : ℚ} (h : x ≤ y) : jsRound x ≤ jsRound y := by
  exact Int.floor_le_floor (by linarith)

theorem roundTo2_intCast (z : ℤ) : roundTo2 (z : ℚ) = z := by
  rw [roundTo2, show ((z : ℚ) * 100) = ((z * 100 : ℤ) : ℚ) by push_cast; ring,
    jsRound_intCast]
  push_cast
  field_simp

theorem roundTo2_ofNat (n : ℕ) : roundTo2 (n : ℚ) = n := by
  have := roundTo2_intCast (n : ℤ)
  rwa [Int.cast_natCast] at this

/-- If `m` is a whole number of cents (`(m * 100).den = 1`) then rounding
to two decimals cannot drop a value below `m`. -/
theorem roundTo2_ge {m x : ℚ} (hden : (m * 100).den = 1) (hle : m ≤ x) :
    m ≤ roundTo2 x := by
  set z : ℤ := (m * 100).num with hz
  have hm : (z : ℚ) = m * 100 := by
    rw [hz, ← Rat.den_eq_one_iff]
    exact hden
  have h1 : (z : ℤ) ≤ jsRound (x * 100) := by
    have : jsRound (z : ℚ) ≤ jsRound (x * 100) := by
      apply jsRound_mono
      rw [hm]
      nlinarith
    rwa [jsRound_intCast] at this
  have h2 : (z : ℚ) ≤ (jsRound (x * 100) : ℚ) := by exact_mod_cast h1
  have hm' : m = (z : ℚ) / 100 := by rw [hm]; ring
  rw [roundTo2, hm']
  exact (div_le_div_iff_of_pos_right (by norm_num)).mpr h2

theorem jsCeil_intCast (z : ℤ) : jsCeil (z : ℚ) = z := Int.ceil_intCast z

theorem jsRound_eq_self {x : ℚ} (n : ℤ) (h : x = (n : ℚ)) : jsRound x = n := by
  rw [h, jsRound_intCast]

theorem jsCeil_eq_self {x : ℚ} (n : ℤ) (h : x = (n : ℚ)) : jsCeil x = n := by
  rw [h, jsCeil_intCast]

theorem roundTo2_eq_self {x : ℚ} (n : ℤ) (h : x = (n : ℚ)) : roundTo2 x = n := by
  rw [h, roundTo2_intCast]

/-- C1: two concurrent `handleAcceptRide` calls on the same pending
ride.  The code reads, checks the snapshot, then writes unconditionally;
under the interleaving read₁ read₂ write₁ write₂ BOTH calls report
success and the second write silently overwrites the first driver's id —
the loser never sees a precondition failure. -/
theorem accept_race_lost_update :
    samplePendingRide.status = RideStatus.pending ∧
    samplePendingRide.driverId = none ∧
    (runAcceptRace [false, true, false, true] 0 (some samplePendingRide)
        sampleAttempt1 sampleAttempt2).2.1.phase =
      AttemptPhase.done AcceptOutcome.success ∧
    (runAcceptRace [false, true, false, true] 0 (some samplePendingRide)
        sampleAttempt1 sampleAttempt2).2.2.phase =
      AttemptPhase.done AcceptOutcome.success ∧
    ((runAcceptRace [false, true, false, true] 0 (some samplePendingRide)
        sampleAttempt1 sampleAttempt2).1).map Ride.driverId = some (some "d2") :=
  ⟨rfl, rfl, rfl, rfl, rfl⟩

/-- C2 counterexample: the record `handleRejectRide` moves into the
cancelled-history collection carries the REJECTING driver's id together
with status `cancelled`, so the claimed iff fails on it. -/
theorem rejectRecord_violates_driverId_iff :
    (rejectRecord 5 "d1" samplePendingRide).status = RideStatus.cancelled ∧
    (rejectRecord 5 "d1" samplePendingRide).driverId = some "d1" ∧
    ¬ driverIdStatusInv (rejectRecord 5 "d1" samplePendingRide) :=
  ⟨rfl, rfl, by simp [driverIdStatusInv, rejectRecord, samplePendingRide]⟩

/-- C2 amended: the iff holds at creation, is established by accept, and
is preserved by arrive/start/complete while a driver is attached; but
every cancelled-history record produced by a driver reject violates it
(`driverId` set, status `cancelled`). -/
theorem driverId_status_inv_transitions :
    (∀ id uid name phone o dst cat dist pay now av,
      driverIdStatusInv (createRideData id uid name phone o dst cat dist pay now av)) ∧
    (∀ uid info now pname r, driverIdStatusInv (acceptUpdate uid info now pname r)) ∧
    (∀ now r, r.driverId ≠ none → driverIdStatusInv (startRide now r)) ∧
    (∀ now r, driverIdStatusInv r → driverIdStatusInv (markArrived now r)) ∧
    (∀ now uid loc r, r.driverId ≠ none →
      driverIdStatusInv (completeRecord now uid loc r)) ∧
    (∀ now uid r, (rejectRecord now uid r).driverId = some uid ∧
      (rejectRecord now uid r).status = RideStatus.cancelled ∧
      ¬ driverIdStatusInv (rejectRecord now uid r)) := by
  refine ⟨?_, ?_, ?_, ?_, ?_, ?_⟩
  · intro id uid name phone o dst cat dist pay now av
    simp [driverIdStatusInv, createRideData]
  · intro uid info now pname r
    simp [driverIdStatusInv, acceptUpdate]
  · intro now r h
    simp [driverIdStatusInv, startRide, h]
  · intro now r h
    simpa [driverIdStatusInv, markArrived] using h
  · intro now uid loc r h
    simp [driverIdStatusInv, completeRecord, h]
  · intro now uid r
    refine ⟨rfl, rfl, ?_⟩
    simp [driverIdStatusInv, rejectRecord]

/-- Witness for the hypotheses of `driverId_status_inv_transitions`. -/
theorem driverId_status_inv_transitions_witness :
    driverIdStatusInv (startRide 3 (acceptUpdate "d1" sampleDriverInfo1 1
      "Passenger" samplePendingRide)) :=
  driverId_status_inv_transitions.2.2.1 3
    (acceptUpdate "d1" sampleDriverInfo1 1 "Passenger" samplePendingRide)
    (by simp [acceptUpdate])

theorem findRide_filter_ne (id : String) (l : List (String × Ride)) :
    findRide id (l.filter fun p => p.1 != id) = none := by
  rw [findRide]
  have h : (l.filter fun p => p.1 != id).find? (fun p => p.1 == id) = none := by
    rw [List.find?_eq_none]
    intro x hx
    have hne := (List.mem_filter.mp hx).2
    simpa using hne
  rw [h]
  rfl

theorem findRide_cons_self (id : String) (x : Ride) (l : List (String × Ride)) :
    findRide id ((id, x) :: l) = some x := by
  simp [findRide, List.find?]

/-- C5 counterexample: the passenger's cancel of the pending ride `r1`
removes it from the live collection but writes NO cancelled-history
record and sets no cancellation fields anywhere. -/
theorem cancel_writes_no_history :
    samplePendingRide.status = RideStatus.pending ∧
    (handleCancelRide "r1" sampleStore).activeRides = [] ∧
    (handleCancelRide "r1" sampleStore).cancelledRides = [] :=
  ⟨rfl, rfl, rfl⟩

/-- C5 amended: the passenger cancel is a bare delete — the historical
collections are untouched and the ride disappears from the live
collection; only the driver-initiated reject relocates a copy with
status `cancelled`, `cancelledAt` and `cancelledBy: 'driver'` into
cancelled history while deleting from live. -/
theorem cancel_deletes_reject_relocates (rideId : String) (s : Store)
    (now : Nat) (uid : String) (r : Ride) :
    (handleCancelRide rideId s).cancelledRides = s.cancelledRides ∧
    (handleCancelRide rideId s).completedRides = s.completedRides ∧
    findRide rideId (handleCancelRide rideId s).activeRides = none ∧
    (handleRejectRide now uid r s).cancelledRides =
      rejectRecord now uid r :: s.cancelledRides ∧
    (rejectRecord now uid r).status = RideStatus.cancelled ∧
    (rejectRecord now uid r).cancelledAt = some now ∧
    (rejectRecord now uid r).cancelledBy = some "driver" ∧
    findRide r.id (handleRejectRide now uid r s).activeRides = none :=
  ⟨rfl, rfl, findRide_filter_ne rideId s.activeRides, rfl, rfl, rfl, rfl,
    findRide_filter_ne r.id s.activeRides⟩

/-- C6 counterexample: a second `markArrived` call at a later time
overwrites `arrivedAt` with the new time — the second call is not a
no-op on the ride record. -/
theorem markArrived_twice_changes_arrivedAt :
    (markArrived 1 samplePendingRide).arrivedAt = some 1 ∧
    (markArrived 2 (markArrived 1 samplePendingRide)).arrivedAt = some 2 ∧
    markArrived 2 (markArrived 1 samplePendingRide) ≠
      markArrived 1 samplePendingRide :=
  ⟨rfl, rfl, fun h => by
    have h2 := congrArg Ride.arrivedAt h
    simp [markArrived] at h2⟩

/-- C6 amended: the second `markArrived` leaves `driverArrived` and all
other fields exactly as the first call set them but restamps
`arrivedAt` with the current time; it is a no-op only when the two
calls carry the same timestamp. -/
theorem markArrived_second_call (r : Ride) (t1 t2 : Nat) :
    markArrived t2 (markArrived t1 r) =
      { markArrived t1 r with arrivedAt := some t2 } ∧
    (markArrived t2 (markArrived t1 r)).driverArrived =
      (markArrived t1 r).driverArrived ∧
    (t1 = t2 → markArrived t2 (markArrived t1 r) = markArrived t1 r) := by
  refine ⟨rfl, rfl, ?_⟩
  intro h
  subst h
  rfl

/-- Witness for the hypothesis of `markArrived_second_call`. -/
theorem markArrived_second_call_witness :
    markArrived 1 (markArrived 1 samplePendingRide) =
      markArrived 1 samplePendingRide :=
  (markArrived_second_call samplePendingRide 1 1).2.2 rfl

/-- C7: completing a ride stores, under the same id, a record that
retains every field the ride had immediately before relocation, with
only the completion fields (`status`, `completedAt`, `completedBy`,
`finalLocation`) set by the transition, and removes the ride from the
live collection. -/
theorem complete_relocation_round_trip (now : Nat) (uid : String)
    (loc : Option (ℚ × ℚ)) (r : Ride) (s : Store) :
    findRide r.id (handleCompleteRide now uid loc r s).completedRides =
      some (completeRecord now uid loc r) ∧
    findRide r.id (handleCompleteRide now uid loc r s).activeRides = none ∧
    (completeRecord now uid loc r).id = r.id ∧
    (completeRecord now uid loc r).userId = r.userId ∧
    (completeRecord now uid loc r).userName = r.userName ∧
    (completeRecord now uid loc r).userPhone = r.userPhone ∧
    (completeRecord now uid loc r).origin = r.origin ∧
    (completeRecord now uid loc r).destination = r.destination ∧
    (completeRecord now uid loc r).category = r.category ∧
    (completeRecord now uid loc r).price = r.price ∧
    (completeRecord now uid loc r).distance = r.distance ∧
    (completeRecord now uid loc r).duration = r.duration ∧
    (completeRecord now uid loc r).estimatedTime = r.estimatedTime ∧
    (completeRecord now uid loc r).paymentMethod = r.paymentMethod ∧
    (completeRecord now uid loc r).driverId = r.driverId ∧
    (completeRecord now uid loc r).driver = r.driver ∧
    (completeRecord now uid loc r).availableDrivers = r.availableDrivers ∧
    (completeRecord now uid loc r).createdAt = r.createdAt ∧
    (completeRecord now uid loc r).updatedAt = r.updatedAt ∧
    (completeRecord now uid loc r).acceptedAt = r.acceptedAt ∧
    (completeRecord now uid loc r).driverArrived = r.driverArrived ∧
    (completeRecord now uid loc r).arrivedAt = r.arrivedAt ∧
    (completeRecord now uid loc r).startedAt = r.startedAt ∧
    (completeRecord now uid loc r).cancelledAt = r.cancelledAt ∧
    (completeRecord now uid loc r).cancelledBy = r.cancelledBy ∧
    (completeRecord now uid loc r).status = RideStatus.completed ∧
    (completeRecord now uid loc r).completedAt = some now ∧
    (completeRecord now uid loc r).completedBy = some uid ∧
    (completeRecord now uid loc r).finalLocation = loc :=
  ⟨findRide_cons_self r.id _ _, findRide_filter_ne r.id s.activeRides,
    rfl, rfl, rfl, rfl, rfl, rfl, rfl, rfl, rfl, rfl, rfl, rfl, rfl, rfl,
    rfl, rfl, rfl, rfl, rfl, rfl, rfl, rfl, rfl, rfl, rfl, rfl, rfl⟩

/-- C8 counterexample: the stale driver is dropped from the passenger's
"nearby drivers" view (15-minute freshness filter) but is still a member
of the pool consulted when matching a new ride, which filters on
`isOnline` alone. -/
theorem stale_driver_in_matching_pool :
    staleDriver.isOnline = true ∧
    onlineDriversView 2000000 [staleDriver] = [] ∧
    checkOnlineDrivers [staleDriver] = [staleDriver] :=
  ⟨rfl, rfl, rfl⟩

/-- C8 amended: an online driver whose `lastUpdate` is at least 15
minutes old is excluded from the "nearby drivers" view, but the driver
set consulted when matching (`checkOnlineDrivers` / the query in
`handleConfirmRide`) applies no freshness window and still contains the
driver. -/
theorem stale_presence_views (now : Int) (ds : List DriverRecord)
    (d : DriverRecord) (t : Int) (hlu : d.lastUpdate = some t)
    (hstale : t ≤ now - 15 * 60 * 1000) (hmem : d ∈ ds)
    (hon : d.isOnline = true) :
    d ∉ onlineDriversView now ds ∧ d ∈ checkOnlineDrivers ds := by
  constructor
  · intro hin
    have h2 := (List.mem_filter.mp hin).2
    rw [hlu] at h2
    have h3 : now - 15 * 60 * 1000 < t := by
      have h4 := (by simpa using h2 :
        ¬d.currentLocation = none ∧ now - 15 * 60 * 1000 < t)
      exact h4.2
    omega
  · exact List.mem_filter.mpr ⟨hmem, hon⟩

/-- Witness for the hypotheses of `stale_presence_views`. -/
theorem stale_presence_views_witness :
    staleDriver ∉ onlineDriversView 2000000 [staleDriver] ∧
    staleDriver ∈ checkOnlineDrivers [staleDriver] :=
  stale_presence_views 2000000 [staleDriver] staleDriver
    (2000000 - 20 * 60 * 1000) rfl (by omega) (by simp) rfl

/-- C10: every 15-second `updateLocation` tick of a mounted driver home
session unconditionally rewrites `isOnline: true`, so a tick right after
the explicit offline toggle puts the driver back online; `isOnline`
becomes durably `false` only through the unmount cleanup. -/
theorem location_tick_forces_online (d : DriverRecord)
    (evs : List PresenceEvent) (loc loc' : ℚ × ℚ) (t t' t'' t''' : Int) :
    (runPresenceEvents d (evs ++ [PresenceEvent.tick loc t])).isOnline = true ∧
    (updateLocationTick loc' t' (toggleOnlineStatus false t'' d)).isOnline = true ∧
    (unmountOffline t''' d).isOnline = false := by
  refine ⟨?_, rfl, rfl⟩
  rw [runPresenceEvents, List.foldl_append]
  rfl

/-- C9 counterexample: the `completedRides` update rule does NOT enforce
set-once — a passenger whose rating is already present may overwrite it
with a second allowed update. -/
theorem rating_overwrite_allowed :
    sampleCompletedDoc.rating = some 5 ∧
    sampleRerateDoc.rating = some 1 ∧
    completedRideUpdateAllowed "p1" false sampleCompletedDoc sampleRerateDoc :=
  ⟨rfl, rfl, Or.inl ⟨rfl, rfl, rfl, rfl, rfl⟩⟩

/-- C9 amended: every non-admin update allowed on a completed ride is
confined to one of the two disjoint rating field sets — so it can touch
neither the price, the parties, nor the status, and a passenger who is
not the assigned driver can only touch the passenger set — but the rule
places no set-once restriction on either set. -/
theorem completed_ride_update_frame (auth : String)
    (old new : CompletedRideDoc)
    (h : completedRideUpdateAllowed auth false old new) :
    (onlyPassengerRatingKeys old new ∨ onlyDriverRatingKeys old new) ∧
    new.ride = old.ride ∧
    new.ride.price = old.ride.price ∧
    new.ride.userId = old.ride.userId ∧
    new.ride.driverId = old.ride.driverId ∧
    new.ride.status = old.ride.status ∧
    (old.ride.driverId ≠ some auth → onlyPassengerRatingKeys old new) := by
  rcases h with ⟨hu, hk⟩ | ⟨hd, hk⟩ | habs
  · exact ⟨Or.inl hk, hk.1, by rw [hk.1], by rw [hk.1], by rw [hk.1], by rw [hk.1],
      fun _ => hk⟩
  · refine ⟨Or.inr hk, hk.1, by rw [hk.1], by rw [hk.1], by rw [hk.1], by rw [hk.1],
      fun hne => absurd hd hne⟩
  · exact absurd habs (by simp)

/-- Witness for the hypothesis of `completed_ride_update_frame`. -/
theorem completed_ride_update_frame_witness :
    sampleRerateDoc.ride.price = sampleCompletedDoc.ride.price ∧
    sampleRerateDoc.ride.status = sampleCompletedDoc.ride.status :=
  ⟨(completed_ride_update_frame "p1" sampleCompletedDoc sampleRerateDoc
      (Or.inl ⟨rfl, ⟨rfl, rfl, rfl, rfl⟩⟩)).2.2.1,
   (completed_ride_update_frame "p1" sampleCompletedDoc sampleRerateDoc
      (Or.inl ⟨rfl, ⟨rfl, rfl, rfl, rfl⟩⟩)).2.2.2.2.2.1⟩

/-- C3 counterexample.  Two refutations: (i) the positional
`calculatePrice` variant never clamps, so with `basePrice = 5` and a
category floor of 10 it returns 5 instead of `max 5 10 = 10`; (ii) the
category-taking variant charges per-km beyond the constant 3 km, not
beyond `category.minDistance`, so at 4000 m ≤ `minDistance` = 5 km it
returns 10 instead of `max 8 8 = 8`. -/
theorem minPrice_clamp_counterexample :
    PricingAlt.calculatePrice 1000 2 5 3 0 0 = 5 ∧
    ((5 : ℚ) ≠ max 5 10) ∧
    (1000 : ℚ) ≤ 3 * 1000 ∧
    minDist5Category.minDistance = 5 ∧
    (4000 : ℚ) ≤ 5 * 1000 ∧
    Pricing.calculatePrice 4000 0 minDist5Category = 10 ∧
    ((10 : ℚ) ≠ max minDist5Category.basePrice minDist5Category.minPrice) := by
  refine ⟨?_, by norm_num, by norm_num, rfl, by norm_num, ?_, ?_⟩
  · have h10 : jsRound ((1000 : ℚ) / 1000 * 10) = 10 := jsRound_eq_self 10 (by norm_num)
    simp only [PricingAlt.calculatePrice, h10]
    norm_num
  · simp only [Pricing.calculatePrice, minDist5Category, Pricing.BASE_DISTANCE_KM]
    norm_num
    exact roundTo2_eq_self 10 (by norm_num)
  · show (10 : ℚ) ≠ max (8 : ℚ) 8
    norm_num

/-- C3 amended: for the category-taking `calculatePrice` (the variant
used by ride creation) the result never drops below a whole-cent
`minPrice`; and with distance ≤ 3000 m (the hardcoded `BASE_DISTANCE_KM`
— not `category.minDistance`) and zero duration it equals the 2-decimal
rounding of `max basePrice minPrice`.  The positional variant applies no
clamp at all (see the counterexample). -/
theorem calculatePrice_min_clamp (d t : ℚ) (c : VehicleCategory)
    (hden : (c.minPrice * 100).den = 1) :
    c.minPrice ≤ Pricing.calculatePrice d t c ∧
    (d ≤ 3000 → Pricing.calculatePrice d 0 c =
      roundTo2 (max c.basePrice c.minPrice)) := by
  constructor
  · rw [Pricing.calculatePrice]
    exact roundTo2_ge hden (le_max_right _ _)
  · intro hd
    rw [Pricing.calculatePrice]
    have hcond : ¬ (Pricing.BASE_DISTANCE_KM < d / 1000) := by
      rw [Pricing.BASE_DISTANCE_KM]
      intro habs
      have h2 : (3 : ℚ) * 1000 < d := (lt_div_iff₀ (by norm_num : (0:ℚ) < 1000)).mp habs
      linarith
    rw [if_neg hcond]
    norm_num

/-- Witness for the hypotheses of `calculatePrice_min_clamp`. -/
theorem calculatePrice_min_clamp_witness :
    happyPathCategory.minPrice ≤ Pricing.calculatePrice 1000 0 happyPathCategory ∧
    Pricing.calculatePrice 1000 0 happyPathCategory =
      roundTo2 (max happyPathCategory.basePrice happyPathCategory.minPrice) := by
  have h := calculatePrice_min_clamp 1000 0 happyPathCategory
    (by rw [show happyPathCategory.minPrice * 100 = (800 : ℚ) from by
          rw [show happyPathCategory.minPrice = 8 from rfl]; norm_num]
        rfl)
  exact ⟨h.1, h.2 (by norm_num)⟩

/-- C4 counterexample: at a time inside the 07:00–09:00 peak window of
the happy-path category, the price actually quoted and stored by
`handleConfirmRide` for the 5000 m ride is 12.00 — not 18.00 — because
the quote path calls the time-independent `calculatePrice`;
`calculateDynamicPrice`, which would multiply by 1.5 and return 18.00,
is never invoked when the ride is created. -/
theorem peak_quote_counterexample :
    Pricing.isPeakHour happyPathCategory 8 0 = true ∧
    happyPathCategory.dynamicPricing.peakHoursMultiplier = 3/2 ∧
    confirmRidePrice 5000 happyPathCategory = 12 ∧
    ((12 : ℚ) ≠ 18) ∧
    Pricing.calculateDynamicPrice happyPathCategory false 8 0 5000 10 = 18 := by
  refine ⟨by decide, rfl, ?_, by norm_num, ?_⟩
  · have ht : confirmRideTimeInMinutes 5000 = 10 := jsCeil_eq_self 10 (by norm_num)
    rw [confirmRidePrice, ht]
    simp only [Pricing.calculatePrice, happyPathCategory, Pricing.BASE_DISTANCE_KM]
    norm_num
    exact roundTo2_eq_self 12 (by norm_num)
  · have hb : Pricing.calculatePrice 5000 10 happyPathCategory = 12 := by
      simp only [Pricing.calculatePrice, happyPathCategory, Pricing.BASE_DISTANCE_KM]
      norm_num
      exact roundTo2_eq_self 12 (by norm_num)
    simp only [Pricing.calculateDynamicPrice, hb,
      show Pricing.isPeakHour happyPathCategory 8 0 = true from by decide,
      show happyPathCategory.dynamicPricing.peakHoursMultiplier = 3/2 from rfl,
      show happyPathCategory.dynamicPricing.rainMultiplier = 12/10 from rfl]
    norm_num
    exact roundTo2_eq_self 18 (by norm_num)

/-- C4 amended: `calculateDynamicPrice` applies the peak multiplier for
any clock time inside a peak window (windows are inclusive at both
boundaries) and yields 18.00 on the happy-path inputs; but the quote
produced at ride creation (`confirmRidePrice`) is by definition the
peak-free `calculatePrice` and equals 12.00 there. -/
theorem peak_multiplier_dynamic_only (c : VehicleCategory) (h m : Nat)
    (d t : ℚ) (hpeak : Pricing.isPeakHour c h m = true) :
    Pricing.calculateDynamicPrice c false h m d t =
      roundTo2 (Pricing.calculatePrice d t c *
        c.dynamicPricing.peakHoursMultiplier) ∧
    Pricing.isPeakHour happyPathCategory 7 0 = true ∧
    Pricing.isPeakHour happyPathCategory 9 0 = true ∧
    Pricing.isPeakHour happyPathCategory 9 1 = false ∧
    Pricing.calculateDynamicPrice happyPathCategory false 8 0 5000 10 = 18 ∧
    confirmRidePrice 5000 happyPathCategory = 12 := by
  refine ⟨?_, by decide, by decide, by decide, ?_, ?_⟩
  · simp only [Pricing.calculateDynamicPrice, hpeak, if_true]
    norm_num
  · have hb : Pricing.calculatePrice 5000 10 happyPathCategory = 12 := by
      simp only [Pricing.calculatePrice, happyPathCategory, Pricing.BASE_DISTANCE_KM]
      norm_num
      exact roundTo2_eq_self 12 (by norm_num)
    simp only [Pricing.calculateDynamicPrice, hb,
      show Pricing.isPeakHour happyPathCategory 8 0 = true from by decide,
      show happyPathCategory.dynamicPricing.peakHoursMultiplier = 3/2 from rfl,
      show happyPathCategory.dynamicPricing.rainMultiplier = 12/10 from rfl]
    norm_num
    exact roundTo2_eq_self 18 (by norm_num)
  · have ht : confirmRideTimeInMinutes 5000 = 10 := jsCeil_eq_self 10 (by norm_num)
    rw [confirmRidePrice, ht]
    simp only [Pricing.calculatePrice, happyPathCategory, Pricing.BASE_DISTANCE_KM]
    norm_num
    exact roundTo2_eq_self 12 (by norm_num)

/-- Witness for the hypothesis of `peak_multiplier_dynamic_only`. -/
theorem peak_multiplier_dynamic_only_witness :
    Pricing.calculateDynamicPrice happyPathCategory false 8 0 5000 10 =
      roundTo2 (Pricing.calculatePrice 5000 10 happyPathCategory *
        happyPathCategory.dynamicPricing.peakHoursMultiplier) :=
  (peak_multiplier_dynamic_only happyPathCategory 8 0 5000 10 (by decide)).1
